import Mathlib

/-!
# Verification of the core simulation of `space-shooter`

Shallow embedding of `src/game_Version3.js`: the entity model (`Ship`,
`Bullet`, `Asteroid`), the shared game state, `reset`, `spawnAsteroid`,
`shoot`, `step` and the driver loop body (`frame`).

Modelling conventions:
* JS floating-point numbers are modelled as exact rationals (`ℚ`); decimal
  literals of the source (`0.999`, `0.0035`, ...) become the corresponding
  exact fractions.
* `Math.cos`, `Math.sin` and `Math.PI` are parameters of the environment
  record `Env` (fields `mcos`, `msin`, `pi`): the properties under study do
  not depend on their values, only on where the source applies them.
* `Math.random()` is an explicit stream of draws (`List ℚ`) threaded through
  every random operation; each real draw lies in `[0,1)` (predicate
  `goodRng`).
* `performance.now()` is a parameter `now : ℚ`; the source reads the clock
  several times inside one `step` (shot cooldown, spawn timer), microseconds
  apart, and all reads within one call are modelled by the same `now`.
* `Math.hypot a b < r` is expressed without square roots as
  `0 < r ∧ a^2 + b^2 < r^2`, which is equivalent because the hypotenuse is
  nonnegative.
-/

namespace SpaceShooter

/-- `rand(min, max) = Math.random()*(max-min)+min` (line 79), with the
`Math.random()` result `u` made explicit. -/
def rand (lo hi u : ℚ) : ℚ := u * (hi - lo) + lo

/-- Pop the next `Math.random()` draw off the stream.  An exhausted stream
yields `0`, itself a legal draw since `Math.random()` ranges over `[0,1)`. -/
def draw : List ℚ → ℚ × List ℚ
  | [] => (0, [])
  | u :: us => (u, us)

/-- Every pending draw lies in `[0,1)`, as `Math.random()` guarantees. -/
def goodRng (rng : List ℚ) : Prop := ∀ u ∈ rng, 0 ≤ u ∧ u < 1

/-- `Math.hypot dx dy < r` without square roots: the hypotenuse is
nonnegative, so the strict comparison holds iff `r` is positive and the
squares compare. -/
def hypotLt (dx dy r : ℚ) : Bool :=
  decide (0 < r) && decide (dx * dx + dy * dy < r * r)

/-- Ambient data the simulation reads: the canvas client size (`w`, `h`),
the debug toggles `shipSpeedMult` / `spawnFastToggle`, and the abstract math
primitives `Math.PI`, `Math.cos`, `Math.sin`. -/
structure Env where
  w : ℚ
  h : ℚ
  pi : ℚ
  speedMult : ℚ
  spawnFast : Bool
  mcos : ℚ → ℚ
  msin : ℚ → ℚ

/-- The `state.ship` record created by `reset` (lines 97-103). -/
structure Ship where
  x : ℚ
  y : ℚ
  vx : ℚ
  vy : ℚ
  angle : ℚ
  radius : ℚ
  thrust : ℚ
  deriving DecidableEq

/-- A bullet record as pushed by `shoot` (line 139). -/
structure Bullet where
  x : ℚ
  y : ℚ
  vx : ℚ
  vy : ℚ
  life : ℚ
  deriving DecidableEq

/-- An asteroid record as pushed by `spawnAsteroid` (line 127) or by
fragmentation (lines 222-230). -/
structure Asteroid where
  x : ℚ
  y : ℚ
  vx : ℚ
  vy : ℚ
  radius : ℚ
  rot : ℚ
  rotSpeed : ℚ
  deriving DecidableEq

/-- The shared `state` object (lines 83-92).  `shotCooldown` models the
expando property `state._shotCooldown`, absent (`none`) until the first
shot. -/
structure GameState where
  ship : Option Ship
  bullets : List Bullet
  asteroids : List Asteroid
  score : ℤ
  lastSpawn : ℚ
  spawnInterval : ℚ
  lastTime : ℚ
  gameOver : Bool
  shotCooldown : Option ℚ
  deriving DecidableEq

/-- The input snapshot `keys`, restricted to the intents `step` reads:
`left = ArrowLeft‖KeyA`, `right = ArrowRight‖KeyD`, `up = ArrowUp‖KeyW`,
`space = Space`, `keyR = KeyR`. -/
structure Input where
  left : Bool
  right : Bool
  up : Bool
  space : Bool
  keyR : Bool
  deriving DecidableEq

/-- `SPAWN_INTERVAL_BASE = 1200` (line 29). -/
def SPAWN_INTERVAL_BASE : ℚ := 1200

/-- The initial `state` literal (lines 83-92): no ship, empty collections,
`lastTime` read from the clock, `_shotCooldown` absent. -/
def initialState (now : ℚ) : GameState :=
  { ship := none, bullets := [], asteroids := [], score := 0,
    lastSpawn := 0, spawnInterval := SPAWN_INTERVAL_BASE, lastTime := now,
    gameOver := false, shotCooldown := none }

/-- `reset()` (lines 94-112): centered fresh ship, empty collections, zero
score, spawn timer restarted at `now = performance.now()`, spawn interval
back to the base (or fast-toggle) value, game-over cleared.  The source
touches no other field: in particular `_shotCooldown` and `lastTime` are
left as they were. -/
def resetState (env : Env) (now : ℚ) (st : GameState) : GameState :=
  { st with
    ship := some { x := env.w / 2, y := env.h / 2, vx := 0, vy := 0,
                   angle := -env.pi / 2, radius := 14, thrust := 0 },
    bullets := [], asteroids := [], score := 0,
    lastSpawn := now,
    spawnInterval := if env.spawnFast then 500 else SPAWN_INTERVAL_BASE,
    gameOver := false }

/-- `spawnAsteroid()` (lines 116-128).  Draw order matches the source: one
draw for the edge choice, three for the per-edge position/velocity, then
radius, rotation and rotation speed.  The final catch-all arm is unreachable
for draws in `[0,1)` (the JS code would leave `x,y,vx,vy` undefined there). -/
def spawnAsteroid (env : Env) (rng : List ℚ) : Asteroid × List ℚ :=
  let d0 := draw rng
  let edge : ℤ := ⌊rand 0 4 d0.1⌋
  let d1 := draw d0.2
  let d2 := draw d1.2
  let d3 := draw d2.2
  let xyv : ℚ × ℚ × ℚ × ℚ :=
    if edge = 0 then (-40, rand 0 env.h d1.1, rand (3/10) (11/10) d2.1, rand (-3/5) (3/5) d3.1)
    else if edge = 1 then (env.w + 40, rand 0 env.h d1.1, rand (-11/10) (-3/10) d2.1, rand (-3/5) (3/5) d3.1)
    else if edge = 2 then (rand 0 env.w d1.1, -40, rand (-3/5) (3/5) d2.1, rand (3/10) (11/10) d3.1)
    else if edge = 3 then (rand 0 env.w d1.1, env.h + 40, rand (-3/5) (3/5) d2.1, rand (-11/10) (-3/10) d3.1)
    else (0, 0, 0, 0)
  let d4 := draw d3.2
  let d5 := draw d4.2
  let d6 := draw d5.2
  ({ x := xyv.1, y := xyv.2.1, vx := xyv.2.2.1, vy := xyv.2.2.2,
     radius := ((⌊rand 18 44 d4.1⌋ : ℤ) : ℚ),
     rot := rand 0 (2 * env.pi) d5.1,
     rotSpeed := rand (-1/50) (1/50) d6.1 }, d6.2)

/-- `shoot()` (lines 132-140): a bullet at the ship's nose, inheriting the
ship velocity plus muzzle speed 6 along the heading, lifetime 120. -/
def mkBullet (env : Env) (s : Ship) : Bullet :=
  { x := s.x + env.mcos s.angle * (s.radius + 6),
    y := s.y + env.msin s.angle * (s.radius + 6),
    vx := s.vx + env.mcos s.angle * 6,
    vy := s.vy + env.msin s.angle * 6,
    life := 120 }

/-- The shot-cooldown guard (line 156):
`!state._shotCooldown || performance.now() - state._shotCooldown > 180`.
JS falsiness makes a stored timestamp of `0` count as "no previous shot". -/
def canShoot (now : ℚ) : Option ℚ → Bool
  | none => true
  | some t => decide (t = 0) || decide (180 < now - t)

/-- The control phase of `step` (lines 147-154): rotate by `0.0035·dt`,
thrust adds `0.0026·dt·shipSpeedMult` along the (updated) heading and sets
the transient thrust flag. -/
def controlShip (env : Env) (input : Input) (dt : ℚ) (s : Ship) : Ship :=
  let a1 := if input.left then s.angle - 7/2000 * dt else s.angle
  let a2 := if input.right then a1 + 7/2000 * dt else a1
  if input.up then
    let force := 13/5000 * dt * env.speedMult
    { s with angle := a2, vx := s.vx + env.mcos a2 * force,
             vy := s.vy + env.msin a2 * force, thrust := 1 }
  else { s with angle := a2, thrust := 0 }

/-- First wrap test of lines 170-173: a coordinate below `-50` teleports to
the far margin. -/
def wrap1 (dim x : ℚ) : ℚ := if x < -50 then dim + 50 else x

/-- Second wrap test: a coordinate above `dim + 50` teleports to `-50`. -/
def wrap2 (dim x : ℚ) : ℚ := if dim + 50 < x then -50 else x

/-- Both sequential wrap tests, exactly as the source applies them per
axis. -/
def wrapX (dim x : ℚ) : ℚ := wrap2 dim (wrap1 dim x)

/-- The ship physics of lines 163-173: multiplicative friction `0.999`
(independent of `dt`), position integration by `v·dt`, then toroidal
wrapping on each axis. -/
def moveShip (env : Env) (dt : ℚ) (s : Ship) : Ship :=
  let vx := s.vx * (999/1000)
  let vy := s.vy * (999/1000)
  { s with vx := vx, vy := vy,
           x := wrapX env.w (s.x + vx * dt),
           y := wrapX env.h (s.y + vy * dt) }

/-- The bullet update loop (lines 176-182).  The source iterates the array
from the last index to the first, advancing each bullet once and splicing
out those whose decremented lifetime is `≤ 0`; since every element is
visited exactly once and removal preserves the relative order of survivors,
the loop is this order-preserving per-element map-and-filter. -/
def updateBullets (dt : ℚ) : List Bullet → List Bullet
  | [] => []
  | b :: bs =>
    let b1 : Bullet := { b with x := b.x + b.vx * dt, y := b.y + b.vy * dt,
                                life := b.life - dt }
    let rest := updateBullets dt bs
    if b1.life ≤ 0 then rest else b1 :: rest

/-- The asteroid update loop (lines 195-204): drift by `v·dt·0.9`, spin by
`rotSpeed·dt`, and cull (no wrap) anything beyond a 200-unit margin outside
the playfield.  Same reverse-iteration-splice pattern as the bullets, hence
the same order-preserving map-and-filter shape. -/
def updateAsteroids (env : Env) (dt : ℚ) : List Asteroid → List Asteroid
  | [] => []
  | a :: rest =>
    let a1 : Asteroid := { a with x := a.x + a.vx * dt * (9/10),
                                  y := a.y + a.vy * dt * (9/10),
                                  rot := a.rot + a.rotSpeed * dt }
    let tail := updateAsteroids env dt rest
    if a1.x < -200 ∨ env.w + 200 < a1.x ∨ a1.y < -200 ∨ env.h + 200 < a1.y
    then tail else a1 :: tail

/-- The inner bullet scan of the collision loop (lines 209-234): indices run
from the last bullet down to the first and the scan stops at the first hit,
so the bullet removed is the one with the *largest* index whose distance to
the asteroid is below `radius + 2`. -/
def lastHitIndex (a : Asteroid) : List Bullet → Option ℕ
  | [] => none
  | b :: bs =>
    match lastHitIndex a bs with
    | some j => some (j + 1)
    | none => if hypotLt (a.x - b.x) (a.y - b.y) (a.radius + 2) then some 0 else none

/-- One fragment literal (lines 221-230): position jittered by
`rand(-10,10)` per axis, velocity by `rand(-1,1)` per axis, radius scaled by
`0.55`, fresh rotation and rotation speed.  Six draws, in source order. -/
def mkFragment (pi : ℚ) (a : Asteroid) (rng : List ℚ) : Asteroid × List ℚ :=
  let d1 := draw rng
  let d2 := draw d1.2
  let d3 := draw d2.2
  let d4 := draw d3.2
  let d5 := draw d4.2
  let d6 := draw d5.2
  ({ x := a.x + rand (-10) 10 d1.1,
     y := a.y + rand (-10) 10 d2.1,
     vx := a.vx + rand (-1) 1 d3.1,
     vy := a.vy + rand (-1) 1 d4.1,
     radius := a.radius * (11/20),
     rot := rand 0 (2 * pi) d5.1,
     rotSpeed := rand (-1/25) (1/25) d6.1 }, d6.2)

/-- Result of the bullet-asteroid collision phase. -/
structure CollideOut where
  asteroids : List Asteroid
  bullets : List Bullet
  score : ℤ
  rng : List ℚ
  deriving DecidableEq

/-- The body of a hit (lines 212-232): splice out bullet `j` and asteroid
`i`, award `floor(100 - radius)`, and if the radius exceeds `26` append the
two fragments (JS `push`, i.e. at the end of the array). -/
def resolveHit (env : Env) (a : Asteroid) (i j : ℕ) (as : List Asteroid)
    (bs : List Bullet) (sc : ℤ) (rng : List ℚ) : CollideOut :=
  let bs1 := bs.eraseIdx j
  let as1 := as.eraseIdx i
  let sc1 := sc + ⌊(100 : ℚ) - a.radius⌋
  if 26 < a.radius then
    let f1 := mkFragment env.pi a rng
    let f2 := mkFragment env.pi a f1.2
    ⟨as1 ++ [f1.1, f2.1], bs1, sc1, f2.2⟩
  else ⟨as1, bs1, sc1, rng⟩

/-- The outer collision loop (lines 207-236): asteroid indices run from
`length - 1` down to `0` (`collideLoop env n` processes indices
`n-1, …, 0`), each asteroid scans the current bullet list once, and a hit
rewrites both collections in place before the next (lower) index is
examined.  Fragments are appended past the current index, so they are never
scanned in the same pass. -/
def collideLoop (env : Env) : ℕ → List Asteroid → List Bullet → ℤ → List ℚ → CollideOut
  | 0, as, bs, sc, rng => ⟨as, bs, sc, rng⟩
  | i + 1, as, bs, sc, rng =>
    match as[i]? with
    | none => collideLoop env i as bs sc rng
    | some a =>
      match lastHitIndex a bs with
      | none => collideLoop env i as bs sc rng
      | some j =>
        let r := resolveHit env a i j as bs sc rng
        collideLoop env i r.asteroids r.bullets r.score r.rng

/-- Instrumented mirror of `collideLoop` that records each destroyed
asteroid (one entry per hit event), used to count collisions. -/
def collideEvents (env : Env) : ℕ → List Asteroid → List Bullet → ℤ → List ℚ → List Asteroid
  | 0, _, _, _, _ => []
  | i + 1, as, bs, sc, rng =>
    match as[i]? with
    | none => collideEvents env i as bs sc rng
    | some a =>
      match lastHitIndex a bs with
      | none => collideEvents env i as bs sc rng
      | some j =>
        let r := resolveHit env a i j as bs sc rng
        a :: collideEvents env i r.asteroids r.bullets r.score r.rng

/-- Bounds monitor for the collision loop: `false` as soon as an asteroid
index or a hit bullet index would fall outside the current collection. -/
def collideInBounds (env : Env) : ℕ → List Asteroid → List Bullet → ℤ → List ℚ → Bool
  | 0, _, _, _, _ => true
  | i + 1, as, bs, sc, rng =>
    match as[i]? with
    | none => false
    | some a =>
      match lastHitIndex a bs with
      | none => collideInBounds env i as bs sc rng
      | some j =>
        decide (j < bs.length) &&
          (let r := resolveHit env a i j as bs sc rng
           collideInBounds env i r.asteroids r.bullets r.score r.rng)

/-- The ship-asteroid pass (lines 239-244): the source iterates in reverse
and only disjoins the overlap tests, so the pass is order-insensitive. -/
def shipHit (s : Ship) : List Asteroid → Bool
  | [] => false
  | a :: rest => hypotLt (a.x - s.x) (a.y - s.y) (a.radius + s.radius - 4) || shipHit s rest

/-- The spawn-interval decay applied on each spawn tick (line 190):
`Math.max(500, spawnInterval * 0.98)`. -/
def spawnDecay (s : ℚ) : ℚ := max 500 (s * (49/50))

/-- `step(dt)` (lines 142-245), with `now = performance.now()` explicit.

Per the source: an absent ship makes the whole call a no-op; the `keys`
snapshot drives rotation/thrust/fire; `R` held while `gameOver` calls
`reset()` *mid-step*, after the fire check and before the physics — and
because the local `s` still aliases the pre-reset ship object, the rest of
the call integrates and collision-tests the stale ship while `state.ship`
keeps the freshly centered one.  Then: ship friction+integration+wrap,
bullet advance/expiry, timed spawn with interval decay, asteroid
advance/cull, bullet-asteroid collisions with scoring and fragmentation,
ship-asteroid game-over test. -/
def step (env : Env) (input : Input) (now dt : ℚ) (st : GameState)
    (rng : List ℚ) : GameState × List ℚ :=
  match st.ship with
  | none => (st, rng)
  | some s0 =>
    let s1 := controlShip env input dt s0
    let fired := input.space && canShoot now st.shotCooldown
    let st1 : GameState :=
      { st with bullets := if fired then st.bullets ++ [mkBullet env s1] else st.bullets,
                shotCooldown := if fired then some now else st.shotCooldown }
    let didReset := input.keyR && st.gameOver
    let st2 := if didReset then resetState env now st1 else st1
    let s2 := moveShip env dt s1
    let bullets1 := updateBullets dt st2.bullets
    let spawnDue := decide (st2.spawnInterval < now - st2.lastSpawn)
    let spawned := spawnAsteroid env rng
    let asts1 := if spawnDue then st2.asteroids ++ [spawned.1] else st2.asteroids
    let rng1 := if spawnDue then spawned.2 else rng
    let lastSpawn1 := if spawnDue then now else st2.lastSpawn
    let interval1 := if spawnDue then spawnDecay st2.spawnInterval else st2.spawnInterval
    let asts2 := updateAsteroids env dt asts1
    let c := collideLoop env asts2.length asts2 bullets1 st2.score rng1
    let over := st2.gameOver || shipHit s2 c.asteroids
    ({ st2 with ship := if didReset then st2.ship else some s2,
                bullets := c.bullets, asteroids := c.asteroids, score := c.score,
                lastSpawn := lastSpawn1, spawnInterval := interval1,
                gameOver := over }, c.rng)

/-- The dt computation of the driver (line 343): `Math.min(40, now - lastTime)`. -/
def driverDt (now lastTime : ℚ) : ℚ := min 40 (now - lastTime)

/-- The clamp the specification prescribes for the driver:
`clamp(now - lastTime, 0, 40)`.  Modelled from the spec's words, for
comparison with `driverDt`. -/
def specClamp (x lo hi : ℚ) : ℚ := max lo (min hi x)

/-- One driver frame, `loop(now)` (lines 342-348, rendering dropped):
compute `dt`, record `lastTime`, and run `step` only when the game is not
over. -/
def frame (env : Env) (input : Input) (now : ℚ) (st : GameState)
    (rng : List ℚ) : GameState × List ℚ :=
  let dt := driverDt now st.lastTime
  let st1 : GameState := { st with lastTime := now }
  if st1.gameOver then (st1, rng) else step env input now dt st1 rng

/-- One scheduled call to `step`: the input snapshot and clock reading for
that tick. -/
structure Tick where
  input : Input
  now : ℚ
  dt : ℚ

/-- A sequence of direct `step` calls threading the state and the random
stream. -/
def runTicks (env : Env) : List Tick → GameState × List ℚ → GameState × List ℚ
  | [], p => p
  | t :: ts, p => runTicks env ts (step env t.input t.now t.dt p.1 p.2)

/-- Every asteroid of the collection has radius at most `c`. -/
def radiiLe (c : ℚ) (l : List Asteroid) : Prop := ∀ a ∈ l, a.radius ≤ c

/-- A concrete environment for evaluating the model: an 800×600 playfield,
debug toggles off, and arbitrary (constant) stand-ins for the trig
primitives. -/
def envW : Env :=
  { w := 800, h := 600, pi := 3, speedMult := 1, spawnFast := false,
    mcos := fun _ => 1, msin := fun _ => 0 }

/-- An input snapshot with no key held. -/
def inputW : Input := ⟨false, false, false, false, false⟩

/-- A drifting ship (unit velocity along x). -/
def shipW : Ship := ⟨100, 100, 1, 0, 0, 14, 0⟩

/-- A resting ship. -/
def shipR : Ship := ⟨100, 100, 0, 0, 0, 14, 0⟩

/-- A game-over state holding the drifting ship, with a recorded last-shot
timestamp. -/
def stateGO : GameState :=
  { ship := some shipW, bullets := [], asteroids := [], score := 0,
    lastSpawn := 0, spawnInterval := 1200, lastTime := 0,
    gameOver := true, shotCooldown := some 999 }

/-- A running (not game-over) state holding the resting ship. -/
def stateRun : GameState :=
  { ship := some shipR, bullets := [], asteroids := [], score := 0,
    lastSpawn := 0, spawnInterval := 1200, lastTime := 0,
    gameOver := false, shotCooldown := none }

lemma draw_good {rng : List ℚ} (h : goodRng rng) :
    (0 ≤ (draw rng).1 ∧ (draw rng).1 < 1) ∧ goodRng (draw rng).2 := by
  cases rng with
  | nil => refine ⟨⟨?_, ?_⟩, h⟩ <;> norm_num [draw]
  | cons u us =>
    exact ⟨h u (List.mem_cons_self u us), fun v hv => h v (List.mem_cons_of_mem u hv)⟩

lemma wrapX_low {dim x : ℚ} (h : x < -50) : wrapX dim x = dim + 50 := by
  simp only [wrapX, wrap1, wrap2, if_pos h]
  rw [if_neg (lt_irrefl (dim + 50))]

lemma wrapX_high {dim x : ℚ} (hd : -100 ≤ dim) (h : dim + 50 < x) :
    wrapX dim x = -50 := by
  simp only [wrapX, wrap1, wrap2, if_neg (show ¬x < -50 by linarith)]
  rw [if_pos h]

lemma wrapX_id {dim x : ℚ} (h1 : -50 ≤ x) (h2 : x ≤ dim + 50) : wrapX dim x = x := by
  simp only [wrapX, wrap1, wrap2, if_neg (show ¬x < -50 by linarith)]
  rw [if_neg (show ¬dim + 50 < x by linarith)]

lemma wrapX_mem {dim x : ℚ} (hd : -100 ≤ dim) :
    -50 ≤ wrapX dim x ∧ wrapX dim x ≤ dim + 50 := by
  rcases lt_or_le x (-50) with h | h
  · rw [wrapX_low h]
    constructor <;> linarith
  · rcases le_or_lt x (dim + 50) with h2 | h2
    · rw [wrapX_id h h2]
      exact ⟨h, h2⟩
    · rw [wrapX_high hd h2]
      constructor <;> linarith

/-- Claim C3, counterexample: at `now = 0`, `lastTime = 10` the driver
passes `dt = -10`, which is negative and differs from
`clamp(now - lastTime, 0, 40) = 0`. -/
theorem claim_C3_cx :
    driverDt 0 10 = -10 ∧ driverDt 0 10 < 0 ∧
    driverDt 0 10 ≠ specClamp ((0 : ℚ) - 10) 0 40 := by
  refine ⟨?_, ?_, ?_⟩ <;> norm_num [driverDt, specClamp]

/-- Claim C3, amended: the driver computes `dt = min(40, now - lastTime)`,
so `dt` never exceeds 40; whenever the clock is monotone
(`lastTime ≤ now`) it is also nonnegative and coincides with
`clamp(now - lastTime, 0, 40)`. -/
theorem claim_C3 (now lastTime : ℚ) (h : lastTime ≤ now) :
    driverDt now lastTime ≤ 40 ∧ 0 ≤ driverDt now lastTime ∧
    driverDt now lastTime = specClamp (now - lastTime) 0 40 := by
  have h0 : (0 : ℚ) ≤ now - lastTime := by linarith
  refine ⟨min_le_left _ _, le_min (by norm_num) h0, ?_⟩
  unfold driverDt specClamp
  rw [max_eq_right (le_min (by norm_num) h0)]

theorem claim_C3_witness :
    driverDt 50 20 ≤ 40 ∧ 0 ≤ driverDt 50 20 ∧
    driverDt 50 20 = specClamp ((50 : ℚ) - 20) 0 40 :=
  claim_C3 50 20 (by norm_num)

/-- Claim C8, counterexample: `reset` leaves the last-shot timestamp
(`state._shotCooldown`) exactly as it was, instead of restoring its
initial (absent) value. -/
theorem claim_C8_cx :
    (resetState envW 5 stateGO).shotCooldown = some 999 ∧
    (resetState envW 5 stateGO).shotCooldown ≠ (initialState 0).shotCooldown := by
  refine ⟨rfl, ?_⟩
  decide

/-- Claim C8, amended: after `reset` the ship exists and is centered, the
bullet and asteroid collections are empty, the score is 0, the spawn timer
restarts at `now`, the spawn interval is the base (or fast-toggle) value and
game-over is cleared — but the last-shot timestamp and the last simulation
timestamp are left untouched, not reinitialized. -/
theorem claim_C8 (env : Env) (now : ℚ) (st : GameState) :
    (resetState env now st).ship =
      some ⟨env.w / 2, env.h / 2, 0, 0, -env.pi / 2, 14, 0⟩ ∧
    (resetState env now st).bullets = [] ∧
    (resetState env now st).asteroids = [] ∧
    (resetState env now st).score = 0 ∧
    (resetState env now st).lastSpawn = now ∧
    (resetState env now st).spawnInterval =
      (if env.spawnFast then 500 else SPAWN_INTERVAL_BASE) ∧
    (resetState env now st).gameOver = false ∧
    (resetState env now st).shotCooldown = st.shotCooldown ∧
    (resetState env now st).lastTime = st.lastTime :=
  ⟨rfl, rfl, rfl, rfl, rfl, rfl, rfl, rfl, rfl⟩

/-- Claim C1, counterexample: `step` itself does not test `gameOver`: called
directly on a game-over state with a drifting ship it still integrates the
physics and moves the ship. -/
theorem claim_C1_cx :
    (step envW inputW 100 10 stateGO []).1.ship ≠ stateGO.ship := by
  have h1 : (step envW inputW 100 10 stateGO []).1.ship =
      some (moveShip envW 10 (controlShip envW inputW 10 shipW)) := rfl
  have hctl : controlShip envW inputW 10 shipW = shipW := rfl
  have hmx : (moveShip envW 10 shipW).x =
      wrapX envW.w (shipW.x + shipW.vx * (999 / 1000) * 10) := rfl
  have h2 : (moveShip envW 10 shipW).x = 10999 / 100 := by
    rw [hmx, wrapX_id (by norm_num [shipW]) (by norm_num [shipW, envW])]
    norm_num [shipW]
  intro hc
  rw [h1, hctl, show stateGO.ship = some shipW from rfl] at hc
  have h5 := congrArg Ship.x (Option.some.inj hc)
  rw [h2] at h5
  norm_num [shipW] at h5

/-- Claim C1, amended: the game-over latch is enforced by the driver, not by
`step`: while `gameOver` is true the per-frame loop body skips `step`
entirely (only `lastTime` is refreshed), so every frame leaves the Ship,
the Bullets, the Asteroids and the score unchanged until `reset`; a direct
`step` call in a game-over state would still advance physics. -/
theorem claim_C1 (env : Env) (input : Input) (now : ℚ) (st : GameState)
    (rng : List ℚ) (h : st.gameOver = true) :
    (frame env input now st rng).1.ship = st.ship ∧
    (frame env input now st rng).1.bullets = st.bullets ∧
    (frame env input now st rng).1.asteroids = st.asteroids ∧
    (frame env input now st rng).1.score = st.score ∧
    (frame env input now st rng).1.gameOver = true ∧
    (frame env input now st rng).2 = rng := by
  simp [frame, h]

lemma lastHitIndex_lt {a : Asteroid} :
    ∀ {bs : List Bullet} {j : ℕ}, lastHitIndex a bs = some j → j < bs.length := by
  intro bs
  induction bs with
  | nil => intro j h; simp [lastHitIndex] at h
  | cons b bs ih =>
    intro j h
    rw [lastHitIndex] at h
    cases hm : lastHitIndex a bs with
    | some j0 =>
      rw [hm] at h
      obtain rfl : j0 + 1 = j := Option.some.inj h
      have := ih hm
      simp only [List.length_cons]
      omega
    | none =>
      rw [hm] at h
      by_cases hc : hypotLt (a.x - b.x) (a.y - b.y) (a.radius + 2) = true
      · rw [if_pos hc] at h
        obtain rfl : 0 = j := Option.some.inj h
        simp
      · rw [if_neg hc] at h
        exact absurd h (by simp)

lemma resolveHit_bullets (env : Env) (a : Asteroid) (i j : ℕ) (as : List Asteroid)
    (bs : List Bullet) (sc : ℤ) (rng : List ℚ) :
    (resolveHit env a i j as bs sc rng).bullets = bs.eraseIdx j := by
  unfold resolveHit
  split <;> rfl

lemma resolveHit_score (env : Env) (a : Asteroid) (i j : ℕ) (as : List Asteroid)
    (bs : List Bullet) (sc : ℤ) (rng : List ℚ) :
    (resolveHit env a i j as bs sc rng).score = sc + ⌊(100 : ℚ) - a.radius⌋ := by
  unfold resolveHit
  split <;> rfl

lemma mkFragment_radius (pi : ℚ) (a : Asteroid) (rng : List ℚ) :
    (mkFragment pi a rng).1.radius = a.radius * (11/20) := rfl

lemma resolveHit_asteroids_split (env : Env) (a : Asteroid) (i j : ℕ)
    (as : List Asteroid) (bs : List Bullet) (sc : ℤ) (rng : List ℚ)
    (h : 26 < a.radius) :
    (resolveHit env a i j as bs sc rng).asteroids =
      as.eraseIdx i ++ [(mkFragment env.pi a rng).1,
        (mkFragment env.pi a (mkFragment env.pi a rng).2).1] := by
  unfold resolveHit
  rw [if_pos h]

lemma resolveHit_asteroids_nosplit (env : Env) (a : Asteroid) (i j : ℕ)
    (as : List Asteroid) (bs : List Bullet) (sc : ℤ) (rng : List ℚ)
    (h : ¬26 < a.radius) :
    (resolveHit env a i j as bs sc rng).asteroids = as.eraseIdx i := by
  unfold resolveHit
  rw [if_neg h]

lemma resolveHit_asteroids_length (env : Env) (a : Asteroid) (i j : ℕ)
    (as : List Asteroid) (bs : List Bullet) (sc : ℤ) (rng : List ℚ)
    (h : i < as.length) :
    i ≤ (resolveHit env a i j as bs sc rng).asteroids.length := by
  have he : (as.eraseIdx i).length + 1 = as.length :=
    List.length_eraseIdx_add_one h
  by_cases hr : 26 < a.radius
  · rw [resolveHit_asteroids_split env a i j as bs sc rng hr]
    simp only [List.length_append, List.length_cons, List.length_nil]
    omega
  · rw [resolveHit_asteroids_nosplit env a i j as bs sc rng hr]
    omega

lemma collideLoop_bullets_sublist (env : Env) :
    ∀ (i : ℕ) (as : List Asteroid) (bs : List Bullet) (sc : ℤ) (rng : List ℚ),
      (collideLoop env i as bs sc rng).bullets.Sublist bs := by
  intro i
  induction i with
  | zero => intro as bs sc rng; exact List.Sublist.refl bs
  | succ i ih =>
    intro as bs sc rng
    cases h1 : as[i]? with
    | none =>
      simp only [collideLoop, h1]
      exact ih as bs sc rng
    | some a =>
      cases h2 : lastHitIndex a bs with
      | none =>
        simp only [collideLoop, h1, h2]
        exact ih as bs sc rng
      | some j =>
        simp only [collideLoop, h1, h2]
        refine List.Sublist.trans (ih _ _ _ _) ?_
        rw [resolveHit_bullets]
        exact List.eraseIdx_sublist bs j

lemma collideLoop_events (env : Env) :
    ∀ (i : ℕ) (as : List Asteroid) (bs : List Bullet) (sc : ℤ) (rng : List ℚ),
      (collideLoop env i as bs sc rng).bullets.length +
          (collideEvents env i as bs sc rng).length = bs.length ∧
        (collideEvents env i as bs sc rng).length ≤ i := by
  intro i
  induction i with
  | zero =>
    intro as bs sc rng
    constructor
    · simp [collideLoop, collideEvents]
    · simp [collideEvents]
  | succ i ih =>
    intro as bs sc rng
    cases h1 : as[i]? with
    | none =>
      simp only [collideLoop, collideEvents, h1]
      exact ⟨(ih as bs sc rng).1, le_trans (ih as bs sc rng).2 (Nat.le_succ i)⟩
    | some a =>
      cases h2 : lastHitIndex a bs with
      | none =>
        simp only [collideLoop, collideEvents, h1, h2]
        exact ⟨(ih as bs sc rng).1, le_trans (ih as bs sc rng).2 (Nat.le_succ i)⟩
      | some j =>
        have hj : j < bs.length := lastHitIndex_lt h2
        have hlen : ((resolveHit env a i j as bs sc rng).bullets).length + 1 = bs.length := by
          rw [resolveHit_bullets]
          exact List.length_eraseIdx_add_one hj
        obtain ⟨hr1, hr2⟩ := ih (resolveHit env a i j as bs sc rng).asteroids
          (resolveHit env a i j as bs sc rng).bullets
          (resolveHit env a i j as bs sc rng).score
          (resolveHit env a i j as bs sc rng).rng
        simp only [collideLoop, collideEvents, h1, h2, List.length_cons]
        omega

lemma collideInBounds_true (env : Env) :
    ∀ (i : ℕ) (as : List Asteroid) (bs : List Bullet) (sc : ℤ) (rng : List ℚ),
      i ≤ as.length → collideInBounds env i as bs sc rng = true := by
  intro i
  induction i with
  | zero => intro as bs sc rng _; rw [collideInBounds]
  | succ i ih =>
    intro as bs sc rng hi
    have hlt : i < as.length := hi
    cases h2 : lastHitIndex as[i] bs with
    | none =>
      simp only [collideInBounds, List.getElem?_eq_getElem hlt, h2]
      exact ih as bs sc rng (Nat.le_of_lt hlt)
    | some j =>
      have hj : j < bs.length := lastHitIndex_lt h2
      have hb : i ≤ (resolveHit env as[i] i j as bs sc rng).asteroids.length :=
        resolveHit_asteroids_length env as[i] i j as bs sc rng hlt
      simp only [collideInBounds, List.getElem?_eq_getElem hlt, h2, hj, decide_True,
        Bool.true_and]
      exact ih _ _ _ _ hb

/-- Claim C9: within one collision pass — the outer index walking the
asteroids downward, the inner scan stopping at the first (highest-index)
hit bullet — the traversal never addresses an index outside the current
collections (`collideInBounds`), the surviving bullets are a sublist of the
originals (so each bullet is removed at most once and none is added), the
number of destroyed asteroids (hit events) exactly equals the number of
bullets consumed (each hit removes exactly one bullet and one asteroid,
so each bullet destroys at most one asteroid), and there is at most one hit
event per scanned asteroid. -/
theorem claim_C9 (env : Env) (i : ℕ) (as : List Asteroid) (bs : List Bullet)
    (sc : ℤ) (rng : List ℚ) (h : i ≤ as.length) :
    collideInBounds env i as bs sc rng = true ∧
    (collideLoop env i as bs sc rng).bullets.Sublist bs ∧
    (collideLoop env i as bs sc rng).bullets.length +
      (collideEvents env i as bs sc rng).length = bs.length ∧
    (collideEvents env i as bs sc rng).length ≤ i :=
  ⟨collideInBounds_true env i as bs sc rng h,
   collideLoop_bullets_sublist env i as bs sc rng,
   (collideLoop_events env i as bs sc rng).1,
   (collideLoop_events env i as bs sc rng).2⟩

theorem claim_C9_witness :
    collideInBounds envW 1 [⟨0, 0, 0, 0, 30, 0, 0⟩] [⟨0, 0, 0, 0, 120⟩] 0 [] = true ∧
    (collideLoop envW 1 [⟨0, 0, 0, 0, 30, 0, 0⟩] [⟨0, 0, 0, 0, 120⟩] 0 []).bullets.Sublist
      [⟨0, 0, 0, 0, 120⟩] ∧
    (collideLoop envW 1 [⟨0, 0, 0, 0, 30, 0, 0⟩] [⟨0, 0, 0, 0, 120⟩] 0 []).bullets.length +
      (collideEvents envW 1 [⟨0, 0, 0, 0, 30, 0, 0⟩] [⟨0, 0, 0, 0, 120⟩] 0 []).length = 1 ∧
    (collideEvents envW 1 [⟨0, 0, 0, 0, 30, 0, 0⟩] [⟨0, 0, 0, 0, 120⟩] 0 []).length ≤ 1 :=
  claim_C9 envW 1 [⟨0, 0, 0, 0, 30, 0, 0⟩] [⟨0, 0, 0, 0, 120⟩] 0 [] (by norm_num)

lemma goodRng_spawnAsteroid {env : Env} {rng : List ℚ} (h : goodRng rng) :
    goodRng (spawnAsteroid env rng).2 := by
  simp only [spawnAsteroid]
  exact (draw_good (draw_good (draw_good (draw_good (draw_good (draw_good
    (draw_good h).2).2).2).2).2).2).2

lemma spawnAsteroid_radius {env : Env} {rng : List ℚ} (h : goodRng rng) :
    18 ≤ (spawnAsteroid env rng).1.radius ∧ (spawnAsteroid env rng).1.radius ≤ 43 := by
  have g1 := draw_good h
  have g2 := draw_good g1.2
  have g3 := draw_good g2.2
  have g4 := draw_good g3.2
  have g5 := draw_good g4.2
  obtain ⟨⟨h5a, h5b⟩, -⟩ := g5
  have hlo : (18 : ℚ) ≤ rand 18 44 (draw (draw (draw (draw (draw rng).2).2).2).2).1 := by
    simp only [rand]
    linarith
  have hhi : rand 18 44 (draw (draw (draw (draw (draw rng).2).2).2).2).1 < 44 := by
    simp only [rand]
    linarith
  simp only [spawnAsteroid]
  constructor
  · have h1 : (18 : ℤ) ≤ ⌊rand 18 44 (draw (draw (draw (draw (draw rng).2).2).2).2).1⌋ :=
      Int.le_floor.mpr (by exact_mod_cast hlo)
    exact_mod_cast h1
  · have h2 : ⌊rand 18 44 (draw (draw (draw (draw (draw rng).2).2).2).2).1⌋ < (44 : ℤ) :=
      Int.floor_lt.mpr (by exact_mod_cast hhi)
    have h3 : ⌊rand 18 44 (draw (draw (draw (draw (draw rng).2).2).2).2).1⌋ ≤ (43 : ℤ) := by
      omega
    exact_mod_cast h3

lemma goodRng_mkFragment {pi : ℚ} {a : Asteroid} {rng : List ℚ} (h : goodRng rng) :
    goodRng (mkFragment pi a rng).2 := by
  simp only [mkFragment]
  exact (draw_good (draw_good (draw_good (draw_good (draw_good
    (draw_good h).2).2).2).2).2).2

lemma mkFragment_jitter (pi : ℚ) (a : Asteroid) (rng : List ℚ) (h : goodRng rng) :
    |(mkFragment pi a rng).1.x - a.x| ≤ 10 ∧ |(mkFragment pi a rng).1.y - a.y| ≤ 10 ∧
    |(mkFragment pi a rng).1.vx - a.vx| ≤ 1 ∧ |(mkFragment pi a rng).1.vy - a.vy| ≤ 1 := by
  have g1 := draw_good h
  have g2 := draw_good g1.2
  have g3 := draw_good g2.2
  have g4 := draw_good g3.2
  obtain ⟨⟨h1a, h1b⟩, -⟩ := g1
  obtain ⟨⟨h2a, h2b⟩, -⟩ := g2
  obtain ⟨⟨h3a, h3b⟩, -⟩ := g3
  obtain ⟨⟨h4a, h4b⟩, -⟩ := g4
  refine ⟨?_, ?_, ?_, ?_⟩ <;>
    · simp only [mkFragment, rand]
      rw [abs_le]
      constructor <;> linarith

/-- Claim C6: a bullet hit on an asteroid with radius above 26 removes the
parent and appends exactly the two fragment records, each with radius 0.55
times the parent's, position jittered by at most 10 per axis and velocity
jittered by at most 1 per axis (for draws in `[0,1)`); a hit on an asteroid
with radius at most 26 only removes the parent; a radius-40 parent yields
fragments of radius 22 and a radius-20 parent yields none. -/
theorem claim_C6 (env : Env) (abig asmall a40 a20 : Asteroid) (i j : ℕ)
    (as : List Asteroid) (bs : List Bullet) (sc : ℤ) (rng : List ℚ)
    (hg : goodRng rng) (hbig : 26 < abig.radius) (hsmall : asmall.radius ≤ 26)
    (h40 : a40.radius = 40) (h20 : a20.radius = 20) :
    (resolveHit env abig i j as bs sc rng).asteroids =
      as.eraseIdx i ++ [(mkFragment env.pi abig rng).1,
        (mkFragment env.pi abig (mkFragment env.pi abig rng).2).1] ∧
    (mkFragment env.pi abig rng).1.radius = abig.radius * (11/20) ∧
    (mkFragment env.pi abig (mkFragment env.pi abig rng).2).1.radius =
      abig.radius * (11/20) ∧
    (|(mkFragment env.pi abig rng).1.x - abig.x| ≤ 10 ∧
      |(mkFragment env.pi abig rng).1.y - abig.y| ≤ 10 ∧
      |(mkFragment env.pi abig rng).1.vx - abig.vx| ≤ 1 ∧
      |(mkFragment env.pi abig rng).1.vy - abig.vy| ≤ 1) ∧
    (|(mkFragment env.pi abig (mkFragment env.pi abig rng).2).1.x - abig.x| ≤ 10 ∧
      |(mkFragment env.pi abig (mkFragment env.pi abig rng).2).1.y - abig.y| ≤ 10 ∧
      |(mkFragment env.pi abig (mkFragment env.pi abig rng).2).1.vx - abig.vx| ≤ 1 ∧
      |(mkFragment env.pi abig (mkFragment env.pi abig rng).2).1.vy - abig.vy| ≤ 1) ∧
    (resolveHit env asmall i j as bs sc rng).asteroids = as.eraseIdx i ∧
    (mkFragment env.pi a40 rng).1.radius = 22 ∧
    (resolveHit env a20 i j as bs sc rng).asteroids = as.eraseIdx i := by
  refine ⟨resolveHit_asteroids_split env abig i j as bs sc rng hbig,
    mkFragment_radius _ _ _, mkFragment_radius _ _ _,
    mkFragment_jitter _ _ _ hg,
    mkFragment_jitter _ _ _ (goodRng_mkFragment hg),
    resolveHit_asteroids_nosplit env asmall i j as bs sc rng (not_lt.mpr hsmall),
    ?_,
    resolveHit_asteroids_nosplit env a20 i j as bs sc rng (by rw [h20]; norm_num)⟩
  rw [mkFragment_radius, h40]
  norm_num

theorem claim_C6_witness :
    (resolveHit envW ⟨0, 0, 0, 0, 40, 0, 0⟩ 0 0 [] [] 0 []).asteroids =
      List.eraseIdx [] 0 ++ [(mkFragment envW.pi ⟨0, 0, 0, 0, 40, 0, 0⟩ []).1,
        (mkFragment envW.pi ⟨0, 0, 0, 0, 40, 0, 0⟩
          (mkFragment envW.pi ⟨0, 0, 0, 0, 40, 0, 0⟩ []).2).1] ∧
    (mkFragment envW.pi ⟨0, 0, 0, 0, 40, 0, 0⟩ []).1.radius =
      (⟨0, 0, 0, 0, 40, 0, 0⟩ : Asteroid).radius * (11/20) ∧
    (mkFragment envW.pi ⟨0, 0, 0, 0, 40, 0, 0⟩
        (mkFragment envW.pi ⟨0, 0, 0, 0, 40, 0, 0⟩ []).2).1.radius =
      (⟨0, 0, 0, 0, 40, 0, 0⟩ : Asteroid).radius * (11/20) ∧
    (|(mkFragment envW.pi ⟨0, 0, 0, 0, 40, 0, 0⟩ []).1.x -
        (⟨0, 0, 0, 0, 40, 0, 0⟩ : Asteroid).x| ≤ 10 ∧
      |(mkFragment envW.pi ⟨0, 0, 0, 0, 40, 0, 0⟩ []).1.y -
        (⟨0, 0, 0, 0, 40, 0, 0⟩ : Asteroid).y| ≤ 10 ∧
      |(mkFragment envW.pi ⟨0, 0, 0, 0, 40, 0, 0⟩ []).1.vx -
        (⟨0, 0, 0, 0, 40, 0, 0⟩ : Asteroid).vx| ≤ 1 ∧
      |(mkFragment envW.pi ⟨0, 0, 0, 0, 40, 0, 0⟩ []).1.vy -
        (⟨0, 0, 0, 0, 40, 0, 0⟩ : Asteroid).vy| ≤ 1) ∧
    (|(mkFragment envW.pi ⟨0, 0, 0, 0, 40, 0, 0⟩
          (mkFragment envW.pi ⟨0, 0, 0, 0, 40, 0, 0⟩ []).2).1.x -
        (⟨0, 0, 0, 0, 40, 0, 0⟩ : Asteroid).x| ≤ 10 ∧
      |(mkFragment envW.pi ⟨0, 0, 0, 0, 40, 0, 0⟩
          (mkFragment envW.pi ⟨0, 0, 0, 0, 40, 0, 0⟩ []).2).1.y -
        (⟨0, 0, 0, 0, 40, 0, 0⟩ : Asteroid).y| ≤ 10 ∧
      |(mkFragment envW.pi ⟨0, 0, 0, 0, 40, 0, 0⟩
          (mkFragment envW.pi ⟨0, 0, 0, 0, 40, 0, 0⟩ []).2).1.vx -
        (⟨0, 0, 0, 0, 40, 0, 0⟩ : Asteroid).vx| ≤ 1 ∧
      |(mkFragment envW.pi ⟨0, 0, 0, 0, 40, 0, 0⟩
          (mkFragment envW.pi ⟨0, 0, 0, 0, 40, 0, 0⟩ []).2).1.vy -
        (⟨0, 0, 0, 0, 40, 0, 0⟩ : Asteroid).vy| ≤ 1) ∧
    (resolveHit envW ⟨0, 0, 0, 0, 20, 0, 0⟩ 0 0 [] [] 0 []).asteroids =
      List.eraseIdx [] 0 ∧
    (mkFragment envW.pi ⟨0, 0, 0, 0, 40, 0, 0⟩ []).1.radius = 22 ∧
    (resolveHit envW ⟨0, 0, 0, 0, 20, 0, 0⟩ 0 0 [] [] 0 []).asteroids =
      List.eraseIdx [] 0 :=
  claim_C6 envW ⟨0, 0, 0, 0, 40, 0, 0⟩ ⟨0, 0, 0, 0, 20, 0, 0⟩ ⟨0, 0, 0, 0, 40, 0, 0⟩
    ⟨0, 0, 0, 0, 20, 0, 0⟩ 0 0 [] [] 0 [] (by intro u hu; cases hu)
    (by norm_num) (by norm_num) rfl rfl

lemma goodRng_resolveHit {env : Env} {a : Asteroid} {i j : ℕ} {as : List Asteroid}
    {bs : List Bullet} {sc : ℤ} {rng : List ℚ} (h : goodRng rng) :
    goodRng (resolveHit env a i j as bs sc rng).rng := by
  unfold resolveHit
  split
  · exact @goodRng_mkFragment env.pi a _ (@goodRng_mkFragment env.pi a rng h)
  · exact h

lemma goodRng_collideLoop (env : Env) :
    ∀ (i : ℕ) (as : List Asteroid) (bs : List Bullet) (sc : ℤ) (rng : List ℚ),
      goodRng rng → goodRng (collideLoop env i as bs sc rng).rng := by
  intro i
  induction i with
  | zero => intro as bs sc rng h; exact h
  | succ i ih =>
    intro as bs sc rng h
    cases h1 : as[i]? with
    | none =>
      simp only [collideLoop, h1]
      exact ih _ _ _ _ h
    | some a =>
      cases h2 : lastHitIndex a bs with
      | none =>
        simp only [collideLoop, h1, h2]
        exact ih _ _ _ _ h
      | some j =>
        simp only [collideLoop, h1, h2]
        exact ih _ _ _ _ (goodRng_resolveHit h)

lemma radiiLe_updateAsteroids {c : ℚ} (env : Env) (dt : ℚ) :
    ∀ (l : List Asteroid), radiiLe c l → radiiLe c (updateAsteroids env dt l) := by
  intro l
  induction l with
  | nil =>
    intro _ a ha
    simp [updateAsteroids] at ha
  | cons b l ih =>
    intro h a ha
    have hb : b.radius ≤ c := h b (List.mem_cons_self b l)
    have hl : radiiLe c l := fun x hx => h x (List.mem_cons_of_mem b hx)
    simp only [updateAsteroids] at ha
    split at ha
    · exact ih hl a ha
    · rcases List.mem_cons.mp ha with rfl | hmem
      · exact hb
      · exact ih hl a hmem

lemma radiiLe_resolveHit {c : ℚ} {env : Env} {a : Asteroid} {i j : ℕ}
    {as : List Asteroid} {bs : List Bullet} {sc : ℤ} {rng : List ℚ}
    (hc : 0 ≤ c) (hall : radiiLe c as) (ha : a.radius ≤ c) :
    radiiLe c (resolveHit env a i j as bs sc rng).asteroids := by
  have hfr : a.radius * (11/20) ≤ c := by
    rcases le_or_lt 0 a.radius with h0 | h0 <;> linarith
  by_cases hr : 26 < a.radius
  · rw [resolveHit_asteroids_split env a i j as bs sc rng hr]
    intro x hx
    rcases List.mem_append.mp hx with hx1 | hx2
    · exact hall x (List.eraseIdx_subset as i hx1)
    · rcases List.mem_cons.mp hx2 with rfl | hx3
      · rw [mkFragment_radius]
        exact hfr
      · rcases List.mem_cons.mp hx3 with rfl | hx4
        · rw [mkFragment_radius]
          exact hfr
        · cases hx4
  · rw [resolveHit_asteroids_nosplit env a i j as bs sc rng hr]
    intro x hx
    exact hall x (List.eraseIdx_subset as i hx)

lemma radiiLe_collideLoop {c : ℚ} (env : Env) (hc : 0 ≤ c) :
    ∀ (i : ℕ) (as : List Asteroid) (bs : List Bullet) (sc : ℤ) (rng : List ℚ),
      radiiLe c as → radiiLe c (collideLoop env i as bs sc rng).asteroids := by
  intro i
  induction i with
  | zero => intro as bs sc rng h; exact h
  | succ i ih =>
    intro as bs sc rng h
    cases h1 : as[i]? with
    | none =>
      simp only [collideLoop, h1]
      exact ih _ _ _ _ h
    | some a =>
      cases h2 : lastHitIndex a bs with
      | none =>
        simp only [collideLoop, h1, h2]
        exact ih _ _ _ _ h
      | some j =>
        simp only [collideLoop, h1, h2]
        exact ih _ _ _ _ (radiiLe_resolveHit hc h (h a (List.getElem?_mem h1)))

lemma radiiLe_nil {c : ℚ} : radiiLe c [] := by
  intro x hx
  cases hx

lemma radiiLe_spawn_singleton {c : ℚ} (env : Env) (rng : List ℚ) (hc : 43 ≤ c)
    (hg : goodRng rng) : radiiLe c [(spawnAsteroid env rng).1] := by
  intro x hx
  rw [List.mem_singleton.mp hx]
  exact le_trans (spawnAsteroid_radius hg).2 hc

lemma radiiLe_append_spawn {c : ℚ} (env : Env) (rng : List ℚ) (hc : 43 ≤ c)
    (hg : goodRng rng) {l : List Asteroid} (h : radiiLe c l) :
    radiiLe c (l ++ [(spawnAsteroid env rng).1]) := by
  intro x hx
  rcases List.mem_append.mp hx with hx1 | hx2
  · exact h x hx1
  · rw [List.mem_singleton.mp hx2]
    exact le_trans (spawnAsteroid_radius hg).2 hc

lemma radiiLe_step {c : ℚ} (env : Env) (input : Input) (now dt : ℚ)
    (st : GameState) (rng : List ℚ) (hc : 43 ≤ c)
    (h : radiiLe c st.asteroids) (hg : goodRng rng) :
    radiiLe c (step env input now dt st rng).1.asteroids ∧
      goodRng (step env input now dt st rng).2 := by
  have hc0 : (0 : ℚ) ≤ c := by linarith
  rcases hship : st.ship with _ | s0
  · refine ⟨?_, ?_⟩
    · have he : (step env input now dt st rng).1 = st := by simp [step, hship]
      rw [he]
      exact h
    · have he : (step env input now dt st rng).2 = rng := by simp [step, hship]
      rw [he]
      exact hg
  · by_cases hdr : (input.keyR && st.gameOver) = true
    · constructor
      · simp only [step, hship, hdr, if_true]
        apply radiiLe_collideLoop env hc0
        apply radiiLe_updateAsteroids
        simp only [resetState, List.nil_append]
        split_ifs <;>
          first
            | exact radiiLe_spawn_singleton env rng hc hg
            | exact radiiLe_nil
      · simp only [step, hship, hdr, if_true]
        apply goodRng_collideLoop
        split_ifs <;>
          first
            | exact goodRng_spawnAsteroid hg
            | exact hg
    · rw [Bool.not_eq_true] at hdr
      constructor
      · simp only [step, hship, hdr, Bool.false_eq_true, if_false]
        apply radiiLe_collideLoop env hc0
        apply radiiLe_updateAsteroids
        split_ifs with hsp
        · exact radiiLe_append_spawn env rng hc hg h
        · exact h
      · simp only [step, hship, hdr, Bool.false_eq_true, if_false]
        apply goodRng_collideLoop
        split_ifs with hsp
        · exact goodRng_spawnAsteroid hg
        · exact hg

lemma collideLoop_score_mono (env : Env) :
    ∀ (i : ℕ) (as : List Asteroid) (bs : List Bullet) (sc : ℤ) (rng : List ℚ),
      radiiLe 100 as → sc ≤ (collideLoop env i as bs sc rng).score := by
  intro i
  induction i with
  | zero => intro as bs sc rng _; exact le_refl sc
  | succ i ih =>
    intro as bs sc rng h
    cases h1 : as[i]? with
    | none =>
      simp only [collideLoop, h1]
      exact ih _ _ _ _ h
    | some a =>
      cases h2 : lastHitIndex a bs with
      | none =>
        simp only [collideLoop, h1, h2]
        exact ih _ _ _ _ h
      | some j =>
        simp only [collideLoop, h1, h2]
        have hr100 : a.radius ≤ 100 := h a (List.getElem?_mem h1)
        have haw : (0 : ℤ) ≤ ⌊(100 : ℚ) - a.radius⌋ :=
          Int.le_floor.mpr (by push_cast; linarith)
        calc sc ≤ (resolveHit env a i j as bs sc rng).score := by
              rw [resolveHit_score]
              omega
          _ ≤ _ := ih _ _ _ _ (radiiLe_resolveHit (by norm_num) h hr100)

lemma step_score_mono (env : Env) (input : Input) (now dt : ℚ) (st : GameState)
    (rng : List ℚ) (h : radiiLe 100 st.asteroids) (hg : goodRng rng)
    (hk : input.keyR = false) :
    st.score ≤ (step env input now dt st rng).1.score := by
  rcases hship : st.ship with _ | s0
  · have he : (step env input now dt st rng).1 = st := by simp [step, hship]
    rw [he]
  · have hdr : (input.keyR && st.gameOver) = false := by
      rw [hk]
      exact Bool.false_and _
    simp only [step, hship, hdr, Bool.false_eq_true, if_false]
    apply collideLoop_score_mono env
    apply radiiLe_updateAsteroids
    split_ifs with hsp
    · exact radiiLe_append_spawn env rng (by norm_num) hg h
    · exact h

lemma runTicks_score_mono (env : Env) :
    ∀ (ticks : List Tick) (st : GameState) (rng : List ℚ),
      radiiLe 100 st.asteroids → goodRng rng →
      (∀ t ∈ ticks, t.input.keyR = false) →
      st.score ≤ (runTicks env ticks (st, rng)).1.score := by
  intro ticks
  induction ticks with
  | nil => intro st rng _ _ _; exact le_refl _
  | cons t ts ih =>
    intro st rng h hg hk
    have hk0 : t.input.keyR = false := hk t (List.mem_cons_self t ts)
    have hks : ∀ u ∈ ts, u.input.keyR = false :=
      fun u hu => hk u (List.mem_cons_of_mem t hu)
    have hinv := radiiLe_step env t.input t.now t.dt st rng (by norm_num) h hg
    have h1 := step_score_mono env t.input t.now t.dt st rng h hg hk0
    have h2 := ih (step env t.input t.now t.dt st rng).1
      (step env t.input t.now t.dt st rng).2 hinv.1 hinv.2 hks
    calc st.score ≤ (step env t.input t.now t.dt st rng).1.score := h1
      _ ≤ _ := by
        rw [runTicks]
        exact h2

/-- Claim C10: with real `Math.random()` draws, a spawned asteroid's radius
lies in `[18, 43]`; `step` preserves the invariant that every asteroid has
radius at most 43 (fragments scale by 0.55, spawns stay below 44); any
fragment of an asteroid within the invariant has radius below 26, so a
fragment destroyed by a bullet never spawns children (fragmentation depth
is one); and every hit on an asteroid within the invariant awards a
strictly positive score. -/
theorem claim_C10 (env : Env) (input : Input) (now dt : ℚ) (st : GameState)
    (rng : List ℚ) (a b : Asteroid) (i j : ℕ) (as : List Asteroid)
    (bs : List Bullet) (sc : ℤ)
    (hg : goodRng rng) (hst : radiiLe 43 st.asteroids)
    (ha : a.radius ≤ 43) (hb : b.radius ≤ 26) :
    18 ≤ (spawnAsteroid env rng).1.radius ∧
    (spawnAsteroid env rng).1.radius ≤ 43 ∧
    radiiLe 43 (step env input now dt st rng).1.asteroids ∧
    (mkFragment env.pi a rng).1.radius < 26 ∧
    (resolveHit env b i j as bs sc rng).asteroids = as.eraseIdx i ∧
    sc < (resolveHit env a i j as bs sc rng).score := by
  refine ⟨(spawnAsteroid_radius hg).1, (spawnAsteroid_radius hg).2,
    (radiiLe_step env input now dt st rng (le_refl 43) hst hg).1, ?_,
    resolveHit_asteroids_nosplit env b i j as bs sc rng (not_lt.mpr hb), ?_⟩
  · rw [mkFragment_radius]
    linarith
  · rw [resolveHit_score]
    have h57 : (57 : ℤ) ≤ ⌊(100 : ℚ) - a.radius⌋ :=
      Int.le_floor.mpr (by push_cast; linarith)
    omega

theorem claim_C10_witness :
    18 ≤ (spawnAsteroid envW []).1.radius ∧
    (spawnAsteroid envW []).1.radius ≤ 43 ∧
    radiiLe 43 (step envW inputW 100 10 stateRun []).1.asteroids ∧
    (mkFragment envW.pi ⟨0, 0, 0, 0, 40, 0, 0⟩ []).1.radius < 26 ∧
    (resolveHit envW ⟨0, 0, 0, 0, 20, 0, 0⟩ 0 0 [] [] 0 []).asteroids =
      List.eraseIdx [] 0 ∧
    (0 : ℤ) < (resolveHit envW ⟨0, 0, 0, 0, 40, 0, 0⟩ 0 0 [] [] 0 []).score :=
  claim_C10 envW inputW 100 10 stateRun [] ⟨0, 0, 0, 0, 40, 0, 0⟩
    ⟨0, 0, 0, 0, 20, 0, 0⟩ 0 0 [] [] 0 (by intro u hu; cases hu)
    (by intro x hx; simp [stateRun] at hx) (by norm_num) (by norm_num)

/-- Claim C4: over any sequence of direct `step` calls in which the restart
key is never held (so `reset` cannot fire), starting from a state whose
asteroids all have radius at most 100 (true of every reachable state) and
with real random draws, the score never decreases; each bullet-asteroid hit
adds exactly `⌊100 − radius⌋` to the score, and a radius-30 asteroid is
worth exactly 70 points. -/
theorem claim_C4 (env : Env) (ticks : List Tick) (st : GameState)
    (rng rng2 : List ℚ) (a a30 : Asteroid) (i j : ℕ) (as : List Asteroid)
    (bs : List Bullet) (sc : ℤ)
    (h100 : radiiLe 100 st.asteroids) (hg : goodRng rng)
    (hk : ∀ t ∈ ticks, t.input.keyR = false) (h30 : a30.radius = 30) :
    st.score ≤ (runTicks env ticks (st, rng)).1.score ∧
    (resolveHit env a i j as bs sc rng2).score = sc + ⌊(100 : ℚ) - a.radius⌋ ∧
    (resolveHit env a30 i j as bs sc rng2).score = sc + 70 := by
  refine ⟨runTicks_score_mono env ticks st rng h100 hg hk,
    resolveHit_score env a i j as bs sc rng2, ?_⟩
  rw [resolveHit_score, h30]
  norm_num

theorem claim_C4_witness :
    stateRun.score ≤ (runTicks envW [⟨inputW, 100, 10⟩] (stateRun, [])).1.score ∧
    (resolveHit envW ⟨0, 0, 0, 0, 40, 0, 0⟩ 0 0 [] [] 0 []).score =
      0 + ⌊(100 : ℚ) - (⟨0, 0, 0, 0, 40, 0, 0⟩ : Asteroid).radius⌋ ∧
    (resolveHit envW ⟨0, 0, 0, 0, 30, 0, 0⟩ 0 0 [] [] 0 []).score = 0 + 70 :=
  claim_C4 envW [⟨inputW, 100, 10⟩] stateRun [] [] ⟨0, 0, 0, 0, 40, 0, 0⟩
    ⟨0, 0, 0, 0, 30, 0, 0⟩ 0 0 [] [] 0 (by intro x hx; simp [stateRun] at hx)
    (by intro u hu; cases hu)
    (by intro t ht; rw [List.mem_singleton.mp ht]; rfl) rfl

lemma step_ship (env : Env) (input : Input) (now dt : ℚ) (st : GameState)
    (rng : List ℚ) (s0 : Ship) (hs : st.ship = some s0) :
    (step env input now dt st rng).1.ship =
      if input.keyR && st.gameOver then
        some { x := env.w / 2, y := env.h / 2, vx := 0, vy := 0,
               angle := -env.pi / 2, radius := 14, thrust := 0 }
      else some (moveShip env dt (controlShip env input dt s0)) := by
  cases hdr : (input.keyR && st.gameOver) <;> simp [step, hs, hdr, resetState]

/-- Claim C7: whatever ship `step` returns has both coordinates inside the
wrap margins — `x ∈ [-50, w+50]`, `y ∈ [-50, h+50]` — and the wrap mapping
teleports a coordinate that crossed a margin to the opposite margin exactly
once (a freshly teleported coordinate is not wrapped again by the second
test) while leaving in-range coordinates alone. -/
theorem claim_C7 (env : Env) (input : Input) (now dt : ℚ) (st : GameState)
    (rng : List ℚ) (s0 s1 : Ship) (x1 x2 x3 : ℚ)
    (hw : 0 ≤ env.w) (hh : 0 ≤ env.h) (hdt0 : 0 ≤ dt) (hdt1 : dt ≤ 40)
    (hs : st.ship = some s0)
    (hres : (step env input now dt st rng).1.ship = some s1)
    (hx1 : x1 < -50) (hx2 : env.w + 50 < x2)
    (hx3a : -50 ≤ x3) (hx3b : x3 ≤ env.w + 50) :
    ((-50 ≤ s1.x ∧ s1.x ≤ env.w + 50) ∧ (-50 ≤ s1.y ∧ s1.y ≤ env.h + 50)) ∧
    wrapX env.w x1 = env.w + 50 ∧ wrapX env.w x2 = -50 ∧ wrapX env.w x3 = x3 := by
  have hw100 : (-100 : ℚ) ≤ env.w := by linarith
  have hh100 : (-100 : ℚ) ≤ env.h := by linarith
  refine ⟨?_, wrapX_low hx1, wrapX_high hw100 hx2, wrapX_id hx3a hx3b⟩
  rw [step_ship env input now dt st rng s0 hs] at hres
  by_cases hdr : (input.keyR && st.gameOver) = true
  · rw [if_pos hdr] at hres
    obtain rfl := Option.some.inj hres
    refine ⟨⟨?_, ?_⟩, ?_, ?_⟩
    · show -50 ≤ env.w / 2
      linarith
    · show env.w / 2 ≤ env.w + 50
      linarith
    · show -50 ≤ env.h / 2
      linarith
    · show env.h / 2 ≤ env.h + 50
      linarith
  · rw [if_neg hdr] at hres
    obtain rfl := Option.some.inj hres
    exact ⟨wrapX_mem hw100, wrapX_mem hh100⟩

theorem claim_C7_witness :
    ((-50 ≤ (⟨400, 300, 0, 0, -3/2, 14, 0⟩ : Ship).x ∧
        (⟨400, 300, 0, 0, -3/2, 14, 0⟩ : Ship).x ≤ envW.w + 50) ∧
      (-50 ≤ (⟨400, 300, 0, 0, -3/2, 14, 0⟩ : Ship).y ∧
        (⟨400, 300, 0, 0, -3/2, 14, 0⟩ : Ship).y ≤ envW.h + 50)) ∧
    wrapX envW.w (-60) = envW.w + 50 ∧ wrapX envW.w 900 = -50 ∧
    wrapX envW.w 0 = 0 :=
  claim_C7 envW { inputW with keyR := true } 100 10 stateGO [] shipW
    ⟨400, 300, 0, 0, -3/2, 14, 0⟩ (-60) 900 0
    (by norm_num [envW]) (by norm_num [envW]) (by norm_num) (by norm_num) rfl
    (by
      rw [step_ship envW { inputW with keyR := true } 100 10 stateGO [] shipW rfl]
      norm_num [envW, inputW, stateGO])
    (by norm_num) (by norm_num [envW]) (by norm_num) (by norm_num [envW])

/-- Claim C2: when `step` runs on a game-over state with the restart intent
held, `reset` fires and the game-over flag is clear when the call returns
(the freshly reset state has no asteroids and its spawn timer just
restarted, so the rest of the call cannot re-set the flag); without the
restart intent a game-over state stays game-over — `reset` is the only
operation that clears the flag; and when the game is not over the restart
key has no effect on `step` at all: the check is evaluated on every call,
only its action is conditional on game-over. -/
theorem claim_C2 (env : Env) (input1 input2 input3 : Input) (now dt : ℚ)
    (stA stB stC : GameState) (rng : List ℚ) (sA : Ship)
    (hA1 : stA.ship = some sA) (hA2 : stA.gameOver = true)
    (hA3 : input1.keyR = true) (hB1 : input2.keyR = false)
    (hB2 : stB.gameOver = true) (hC1 : stC.gameOver = false) :
    (step env input1 now dt stA rng).1.gameOver = false ∧
    (step env input2 now dt stB rng).1.gameOver = true ∧
    step env { input3 with keyR := true } now dt stC rng =
      step env { input3 with keyR := false } now dt stC rng := by
  refine ⟨?_, ?_, ?_⟩
  · have h500 : ¬ ((500 : ℚ) < 0) := by norm_num
    have h1200 : ¬ (SPAWN_INTERVAL_BASE < (0 : ℚ)) := by norm_num [SPAWN_INTERVAL_BASE]
    cases hfast : env.spawnFast <;>
      simp [step, hA1, hA2, hA3, resetState, hfast, h500, h1200,
        updateAsteroids, collideLoop, shipHit]
  · rcases hsB : stB.ship with _ | s0
    · simp [step, hsB, hB2]
    · simp [step, hsB, hB1, hB2]
  · rcases hsC : stC.ship with _ | s0
    · simp [step, hsC]
    · simp [step, hsC, hC1, controlShip]

theorem claim_C2_witness :
    (step envW { inputW with keyR := true } 100 10 stateGO []).1.gameOver = false ∧
    (step envW inputW 100 10 stateGO []).1.gameOver = true ∧
    step envW { inputW with keyR := true } 100 10 stateRun [] =
      step envW { inputW with keyR := false } 100 10 stateRun [] :=
  claim_C2 envW { inputW with keyR := true } inputW inputW 100 10 stateGO stateGO
    stateRun [] shipW rfl rfl rfl rfl rfl rfl

/-- Claim C5: the spawn-tick decay `max 500 (interval · 0.98)` always lands
at or above the 500 ms floor, stays there after arbitrarily many ticks, and
never increases an interval that is at or above the floor; accordingly a
`step` that does not reset keeps `spawnInterval` at or above 500 and never
larger than before. -/
theorem claim_C5 (env : Env) (input : Input) (now dt : ℚ) (st : GameState)
    (rng : List ℚ) (s s2 : ℚ) (n : ℕ)
    (hnr : (input.keyR && st.gameOver) = false)
    (hst : 500 ≤ st.spawnInterval) (hs : 500 ≤ s) :
    500 ≤ spawnDecay s2 ∧ 500 ≤ spawnDecay^[n + 1] s2 ∧ spawnDecay s ≤ s ∧
    500 ≤ (step env input now dt st rng).1.spawnInterval ∧
    (step env input now dt st rng).1.spawnInterval ≤ st.spawnInterval := by
  have hdec : ∀ u : ℚ, 500 ≤ spawnDecay u := fun u => le_max_left _ _
  have hle : ∀ u : ℚ, 500 ≤ u → spawnDecay u ≤ u := by
    intro u hu
    apply max_le (by linarith)
    linarith
  have hiter : 500 ≤ spawnDecay^[n + 1] s2 := by
    rw [Function.iterate_succ_apply']
    exact hdec _
  have hstep : 500 ≤ (step env input now dt st rng).1.spawnInterval ∧
      (step env input now dt st rng).1.spawnInterval ≤ st.spawnInterval := by
    rcases hship : st.ship with _ | s0
    · have he : (step env input now dt st rng).1.spawnInterval = st.spawnInterval := by
        simp [step, hship]
      rw [he]
      exact ⟨hst, le_refl _⟩
    · by_cases hsp : st.spawnInterval < now - st.lastSpawn
      · have he : (step env input now dt st rng).1.spawnInterval =
            spawnDecay st.spawnInterval := by
          simp [step, hship, hnr, hsp]
        rw [he]
        exact ⟨hdec _, hle _ hst⟩
      · have he : (step env input now dt st rng).1.spawnInterval = st.spawnInterval := by
          simp [step, hship, hnr, hsp]
        rw [he]
        exact ⟨hst, le_refl _⟩
  exact ⟨hdec s2, hiter, hle s hs, hstep.1, hstep.2⟩

theorem claim_C5_witness :
    500 ≤ spawnDecay 700 ∧ 500 ≤ spawnDecay^[2 + 1] 700 ∧
    spawnDecay 600 ≤ 600 ∧
    500 ≤ (step envW inputW 100 10 stateRun []).1.spawnInterval ∧
    (step envW inputW 100 10 stateRun []).1.spawnInterval ≤
      stateRun.spawnInterval :=
  claim_C5 envW inputW 100 10 stateRun [] 600 700 2 rfl
    (by norm_num [stateRun]) (by norm_num)

theorem claim_C1_witness :
    (frame envW inputW 100 stateGO []).1.ship = stateGO.ship ∧
    (frame envW inputW 100 stateGO []).1.bullets = stateGO.bullets ∧
    (frame envW inputW 100 stateGO []).1.asteroids = stateGO.asteroids ∧
    (frame envW inputW 100 stateGO []).1.score = stateGO.score ∧
    (frame envW inputW 100 stateGO []).1.gameOver = true ∧
    (frame envW inputW 100 stateGO []).2 = [] :=
  claim_C1 envW inputW 100 stateGO [] rfl

end SpaceShooter
